import Mathlib

/-!
Verification of the batch contract-processing pipeline (`full_flow_batch.py`).

The script processes a fixed manifest of contract documents through a
four-stage remote pipeline (register an ingestion record, ingest file
content, extract clauses, analyze) and collects one result entry per
manifest entry.

Shallow embedding: the external world (file system and remote platform) is
an oracle (`DocWorld`) supplying, per document, the existence of the file,
its bytes, the freshly generated UUID, and the outcome of each remote call.
The observable behaviour of the script — the appended result entries, the
remote requests issued (with their headers, bodies and timeouts), the
generation of the ingestion identifier, and the artifact writes — is
returned as an event trace, in program order.
-/

set_option autoImplicit false

namespace FullFlowBatch

/-- JSON values, as produced by `json.loads` for the ingestion response body.
(Numbers are modelled as integers; no claim inspects a numeric value.) -/
inductive JVal where
  | null
  | bool (b : Bool)
  | num (n : Int)
  | str (s : String)
  | arr (xs : List JVal)
  | obj (fields : List (String × JVal))

/-- Python truthiness of an optional string (`None` and `""` are falsy). -/
def pyTruthy : Option String → Bool
  | none => false
  | some s => s ≠ ""

/-- Python `a or b` on optional strings: `a` when truthy, otherwise `b`. -/
def pyOrStr (a b : Option String) : Option String :=
  if pyTruthy a then a else b

/-- `str.lower()`: lowercase the string (`Char.toLower` lowercases exactly
the ASCII range; every extension involved is ASCII). -/
def strLower (s : String) : String :=
  String.mk (s.data.map Char.toLower)

/-- `str.rstrip("/")`: remove all trailing slash characters. -/
def rstripSlash (s : String) : String :=
  String.mk ((s.data.reverse.dropWhile (fun c => c = '/')).reverse)

/-- `str.lstrip(".")`: remove all leading dot characters. -/
def lstripDot (s : String) : String :=
  String.mk (s.data.dropWhile (fun c => c = '.'))

/-- `str.replace(' ', '_')`: replace every space by an underscore
(for single-character arguments `str.replace` is a character map). -/
def replaceSpaces (s : String) : String :=
  String.mk (s.data.map (fun c => if c = ' ' then '_' else c))

/-- `pathlib.Path(p).name`: the final path component (the manifest paths
carry no trailing slash, so taking the segment after the last `/` agrees
with `pathlib`). -/
def pathName (p : String) : String :=
  String.mk ((p.data.reverse.takeWhile (fun c => c ≠ '/')).reverse)

/-- Index of the last `.` in a character list (`str.rfind('.')`),
or `none` when absent. -/
def rfindDot : List Char → Option Nat
  | [] => none
  | c :: cs =>
    match rfindDot cs with
    | some i => some (i + 1)
    | none => if c = '.' then some 0 else none

/-- `pathlib.Path(p).suffix`: the extension of the final component,
nonempty exactly when the last dot is neither the first nor the last
character of the name (CPython's implementation condition
`0 < i < len(name) - 1`). -/
def pathSuffix (p : String) : String :=
  let name := (pathName p).data
  match rfindDot name with
  | some i => if 0 < i ∧ i < name.length - 1 then String.mk (name.drop i) else ""
  | none => ""

/-- `pathlib.Path(p).stem`: the final component without its suffix. -/
def pathStem (p : String) : String :=
  let name := (pathName p).data
  match rfindDot name with
  | some i => if 0 < i ∧ i < name.length - 1 then String.mk (name.take i) else String.mk name
  | none => String.mk name

/-- One character of the standard base64 alphabet. -/
def b64Char (n : Nat) : Char :=
  "ABCDEFGHIJKLMNOPQRSTUVWXYZabcdefghijklmnopqrstuvwxyz0123456789+/".data.getD n 'A'

/-- RFC 4648 base64 of a byte list (`base64.b64encode`), with padding. -/
def b64encodeList : List Nat → List Char
  | [] => []
  | [a] => [b64Char (a / 4), b64Char (a % 4 * 16), '=', '=']
  | [a, b] => [b64Char (a / 4), b64Char (a % 4 * 16 + b / 16), b64Char (b % 16 * 4), '=']
  | a :: b :: c :: rest =>
    b64Char (a / 4) :: b64Char (a % 4 * 16 + b / 16) ::
      b64Char (b % 16 * 4 + c / 64) :: b64Char (c % 64) :: b64encodeList rest

/-- `base64.b64encode(data).decode()`. -/
def b64encode (bs : List Nat) : String :=
  String.mk (b64encodeList bs)

/-- The `solution` object of a manifest entry. -/
structure Solution where
  id : String
  key : String
  title : String
deriving DecidableEq

/-- A manifest entry (`files` list element). -/
structure FileEntry where
  path : String
  contractType : String
  solution : Solution
  perspective : String
deriving DecidableEq

/-- First manifest entry (lines 20–25). -/
def demoNda : FileEntry :=
  { path := "docs/Demo NDA AL.docx"
  , contractType := "non_disclosure_agreement"
  , solution := { id := "nda", key := "nda", title := "Non-Disclosure Agreement" }
  , perspective := "disclosing-party" }

/-- Second manifest entry (lines 26–31). -/
def appendixNda : FileEntry :=
  { path := "docs/5-Appendix-Non-Disclosure-Agreement-Mutual.pdf"
  , contractType := "non_disclosure_agreement"
  , solution := { id := "nda", key := "nda", title := "Non-Disclosure Agreement" }
  , perspective := "disclosing-party" }

/-- Third manifest entry (lines 32–37). -/
def exempelNda : FileEntry :=
  { path := "docs/exempel-2.docx"
  , contractType := "non_disclosure_agreement"
  , solution := { id := "nda", key := "nda", title := "Non-Disclosure Agreement" }
  , perspective := "disclosing-party" }

/-- Fourth manifest entry (lines 38–43). -/
def dpaEntry : FileEntry :=
  { path := "docs/dpa.pdf"
  , contractType := "data_processing_agreement"
  , solution := { id := "dpa", key := "dpa", title := "Data Processing Agreement" }
  , perspective := "data-controller" }

/-- The fixed manifest (`files`, lines 19–44 of the script). -/
def files : List FileEntry :=
  [demoNda, appendixNda, exempelNda, dpaEntry]

/-- The office-document MIME type mapped to `.docx`. -/
def docxMime : String :=
  "application/vnd.openxmlformats-officedocument.wordprocessingml.document"

/-- `MIME_BY_EXT` (lines 46–49). -/
def MIME_BY_EXT : List (String × String) :=
  [ (".docx", docxMime)
  , (".pdf", "application/pdf") ]

/-- The record sent to the record-creation (store) endpoint (lines 69–77). -/
structure IngestionRecord where
  id : String
  status : String
  storage_bucket : String
  storage_path : String
  original_name : String
  mime_type : String
  file_size : Nat
deriving DecidableEq

/-- Body of the `ingest-contract` function request (lines 104–113). -/
structure IngestBody where
  ingestionId : String
  content : String
  fileType : String
  fileName : String
  documentFormat : String
  contractType : String
deriving DecidableEq

/-- Body of the `extract-clauses` function request (lines 133–139). -/
structure ExtractBody where
  ingestionId : String
  contractType : String
  forceRefresh : Bool
deriving DecidableEq

/-- Body of the `analyze-contract` function request (lines 159–168). -/
structure AnalyzeBody where
  ingestionId : String
  reviewType : String
  model : String
  contractType : String
  perspective : String
  selectedSolution : Solution
deriving DecidableEq

/-- The JSON body of a remote request, one constructor per stage. -/
inductive Body where
  | record (r : IngestionRecord)
  | ingest (b : IngestBody)
  | extract (b : ExtractBody)
  | analyze (b : AnalyzeBody)
deriving DecidableEq

/-- HTTP headers set by the script on a request. -/
structure Headers where
  contentType : String
  authorization : String
  apikey : String
  prefer : Option String
deriving DecidableEq

/-- One remote HTTP request as issued by `urllib.request.Request` +
`urlopen(req, timeout=...)`. -/
structure Request where
  url : String
  body : Body
  headers : Headers
  method : String
  timeout : Nat
deriving DecidableEq

/-- Observable events of one document's pipeline, in program order. -/
inductive Event where
  | genId (id : String)
  | call (r : Request)
  | writeArtifact (path : String) (bytes : List Nat)
deriving DecidableEq

/-- One result entry appended to `results`; three constructors for the three
dict shapes the script builds: failure without `ingestionId` (lines 56, 62,
94), failure with `ingestionId` (lines 125, 151, 180), and success
(lines 188–195, where `clausesCached` may be JSON null via `.get`). -/
inductive ResultEntry where
  | failureNoId (path : String) (err : String)
  | failureWithId (path : String) (err : String) (ingestionId : String)
  | success (path : String) (ingestionId : String) (clausesCached : Option JVal)
      (output : String)

/-- The `path` field present in every result entry. -/
def ResultEntry.pathOf : ResultEntry → String
  | .failureNoId p _ => p
  | .failureWithId p _ _ => p
  | .success p _ _ _ => p

/-- The `error` field of a result entry, when present. -/
def ResultEntry.errOf : ResultEntry → Option String
  | .failureNoId _ e => some e
  | .failureWithId _ e _ => some e
  | .success _ _ _ _ => none

/-- The `ingestionId` field of a result entry, when present. -/
def ResultEntry.idOf : ResultEntry → Option String
  | .failureNoId _ _ => none
  | .failureWithId _ _ i => some i
  | .success _ i _ _ => some i

/-- Configuration derived from `.env` (lines 13–17). -/
structure Config where
  supabase_url : String
  anon_key : String
  service_key : String
deriving DecidableEq

/-- Oracle for one document: file-system facts, the UUID the script will
draw, and the outcome of each remote call (an `Except` error models any
exception raised inside the corresponding `try` block: network failure,
timeout, non-2xx status, or response-parse failure). The ingestion
response is the parsed JSON object (the remote contract promises a JSON
object containing at least `clausesCached`). -/
structure DocWorld where
  pathExists : Bool
  fileBytes : List Nat
  freshId : String
  registerResp : Except String Unit
  ingestResp : Except String (List (String × JVal))
  extractResp : Except String Unit
  analyzeResp : Except String (List Nat)

/-- Headers of the three function-endpoint requests (lines 114–118,
140–144, 169–173): restricted client credential as bearer token and as
`apikey`, no `Prefer` header. -/
def anonHeaders (cfg : Config) : Headers :=
  { contentType := "application/json"
  , authorization := "Bearer " ++ cfg.anon_key
  , apikey := cfg.anon_key
  , prefer := none }

/-- The registration request (lines 67–91): an `IngestionRecord` with the
locally generated identifier, posted to the store endpoint with the
elevated credential and `Prefer: return=representation`, timeout 60. -/
def registerRequest (cfg : Config) (entry : FileEntry) (mime : String)
    (data : List Nat) (ingestion_id : String) : Request :=
  { url := cfg.supabase_url ++ "/rest/v1/contract_ingestions"
  , body := .record (
    { id := ingestion_id
    , status := "uploaded"
    , storage_bucket := "ingestions"
    , storage_path := "manual/" ++ ingestion_id ++ "/" ++ pathName entry.path
    , original_name := pathName entry.path
    , mime_type := mime
    , file_size := data.length })
  , headers :=
    { contentType := "application/json"
    , authorization := "Bearer " ++ cfg.service_key
    , apikey := cfg.service_key
    , prefer := some "return=representation" }
  , method := "POST"
  , timeout := 60 }

/-- The ingestion request (lines 97–121): file bytes base64-encoded behind
a format marker chosen by extension, posted to the `ingest-contract`
function with the restricted credential, timeout 180. -/
def ingestRequest (cfg : Config) (entry : FileEntry) (ext mime : String)
    (data : List Nat) (ingestion_id : String) : Request :=
  { url := cfg.supabase_url ++ "/functions/v1/ingest-contract"
  , body := .ingest (
    { ingestionId := ingestion_id
    , content :=
        (if ext = ".docx" then "DOCX_FILE_BASE64:" else "PDF_FILE_BASE64:") ++
          b64encode data
    , fileType := mime
    , fileName := pathName entry.path
    , documentFormat := lstripDot ext
    , contractType := entry.contractType })
  , headers := anonHeaders cfg
  , method := "POST"
  , timeout := 180 }

/-- The clause-extraction request (lines 129–147), restricted credential,
timeout 180. -/
def extractRequest (cfg : Config) (entry : FileEntry) (ingestion_id : String) :
    Request :=
  { url := cfg.supabase_url ++ "/functions/v1/extract-clauses"
  , body := .extract (
    { ingestionId := ingestion_id
    , contractType := entry.contractType
    , forceRefresh := false })
  , headers := anonHeaders cfg
  , method := "POST"
  , timeout := 180 }

/-- The analysis request (lines 155–176), restricted credential,
timeout 240. -/
def analyzeRequest (cfg : Config) (entry : FileEntry) (ingestion_id : String) :
    Request :=
  { url := cfg.supabase_url ++ "/functions/v1/analyze-contract"
  , body := .analyze (
    { ingestionId := ingestion_id
    , reviewType := "full_summary"
    , model := "openai-gpt-5-nano"
    , contractType := entry.contractType
    , perspective := entry.perspective
    , selectedSolution := entry.solution })
  , headers := anonHeaders cfg
  , method := "POST"
  , timeout := 240 }

/-- The body of the per-document loop (lines 53–195): classify, register,
ingest, extract, analyze, short-circuiting at the first failure. Returns
the result entry appended for the document and the document's event trace
in program order (identifier generation, remote calls as attempted, and
the artifact write). -/
def processEntry (cfg : Config) (entry : FileEntry) (w : DocWorld) :
    ResultEntry × List Event :=
  if ¬ w.pathExists then
    (.failureNoId entry.path "file-not-found", [])
  else
    let ext := strLower (pathSuffix entry.path)
    match List.lookup ext MIME_BY_EXT with
    | none => (.failureNoId entry.path ("unsupported-extension:" ++ ext), [])
    | some mime =>
      if mime = "" then
        (.failureNoId entry.path ("unsupported-extension:" ++ ext), [])
      else
        let data := w.fileBytes
        let ingestion_id := w.freshId
        let registerReq := registerRequest cfg entry mime data ingestion_id
        match w.registerResp with
        | .error exc =>
          (.failureNoId entry.path ("ingestion-record:" ++ exc),
            [.genId ingestion_id, .call registerReq])
        | .ok _ =>
          let ingestReq := ingestRequest cfg entry ext mime data ingestion_id
          match w.ingestResp with
          | .error exc =>
            (.failureWithId entry.path ("ingest-contract:" ++ exc) ingestion_id,
              [.genId ingestion_id, .call registerReq, .call ingestReq])
          | .ok ingest_body =>
            let extractReq := extractRequest cfg entry ingestion_id
            match w.extractResp with
            | .error exc =>
              (.failureWithId entry.path ("extract-clauses:" ++ exc) ingestion_id,
                [.genId ingestion_id, .call registerReq, .call ingestReq,
                  .call extractReq])
            | .ok _ =>
              let analyzeReq := analyzeRequest cfg entry ingestion_id
              match w.analyzeResp with
              | .error exc =>
                (.failureWithId entry.path ("analyze-contract:" ++ exc) ingestion_id,
                  [.genId ingestion_id, .call registerReq, .call ingestReq,
                    .call extractReq, .call analyzeReq])
              | .ok body =>
                let out_path := "/tmp/" ++
                  (replaceSpaces (pathStem entry.path) ++ "-analysis.json")
                (.success entry.path ingestion_id
                    (List.lookup "clausesCached" ingest_body) out_path,
                  [.genId ingestion_id, .call registerReq, .call ingestReq,
                    .call extractReq, .call analyzeReq,
                    .writeArtifact out_path body])

/-- The whole per-document loop (lines 51–197): one appended entry per
manifest entry, strictly sequential; `w i` is the `i`-th document's
oracle. -/
def runDocs (cfg : Config) : List FileEntry → (Nat → DocWorld) → Nat →
    List ResultEntry × List Event
  | [], _, _ => ([], [])
  | e :: rest, w, i =>
    let r := processEntry cfg e (w i)
    let tl := runDocs cfg rest w (i + 1)
    (r.1 :: tl.1, r.2 ++ tl.2)

/-- The script after `.env` parsing (lines 13–197): configuration lookups
(`KeyError` on a missing URL or client key, `SystemExit` on a missing or
empty elevated credential, both modelled as `Except.error`), then the
document loop. The event trace is returned alongside and is empty on
abort. -/
def runBatch (env : List (String × String)) (fs : List FileEntry)
    (w : Nat → DocWorld) : Except String (List ResultEntry) × List Event :=
  match List.lookup "VITE_SUPABASE_URL" env with
  | none => (.error "KeyError: VITE_SUPABASE_URL", [])
  | some url =>
    match List.lookup "VITE_SUPABASE_ANON_KEY" env with
    | none => (.error "KeyError: VITE_SUPABASE_ANON_KEY", [])
    | some anon =>
      let service := pyOrStr (List.lookup "SUPABASE_SERVICE_ROLE_KEY" env)
        (List.lookup "SUPABASE_SERVICE_KEY" env)
      if pyTruthy service then
        let cfg : Config :=
          { supabase_url := rstripSlash url
          , anon_key := anon
          , service_key := service.getD "" }
        let out := runDocs cfg fs w 0
        (.ok out.1, out.2)
      else
        (.error "SystemExit: Missing SUPABASE_SERVICE_ROLE_KEY in .env", [])

/-- Whether an event is the client-side generation of the ingestion id. -/
def Event.isGen : Event → Bool
  | .genId _ => true
  | _ => false

/-- Whether an event is a remote call. -/
def Event.isCall : Event → Bool
  | .call _ => true
  | _ => false

/-- Whether an event is an artifact write. -/
def Event.isWrite : Event → Bool
  | .writeArtifact _ _ => true
  | _ => false

/-- The identifier carried in a request body: the `id` of the registration
record, or the `ingestionId` field of a function request. -/
def Body.idOf : Body → String
  | .record r => r.id
  | .ingest b => b.ingestionId
  | .extract b => b.ingestionId
  | .analyze b => b.ingestionId

/-- Whether a request body is a clause-extraction body. -/
def Body.isExtract : Body → Bool
  | .extract _ => true
  | _ => false

/-- Whether a request body is an analysis body. -/
def Body.isAnalyze : Body → Bool
  | .analyze _ => true
  | _ => false

/-- Artifact location of a successful document (lines 184–185):
`/tmp/<stem with spaces replaced by underscores>-analysis.json`. -/
def artifactPath (p : String) : String :=
  "/tmp/" ++ (replaceSpaces (pathStem p) ++ "-analysis.json")

/-- Whether an event is anything other than a clause-extraction or an
analysis remote call (used to state that those stages were never
attempted). -/
def notExtractOrAnalyze : Event → Bool
  | .call r => !(Body.isExtract r.body) && !(Body.isAnalyze r.body)
  | _ => true

/-- Whether an `Except` outcome is an error (a raised `SystemExit` or
`KeyError` in the script's prologue). -/
def isErr {ε α : Type} : Except ε α → Bool
  | .error _ => true
  | .ok _ => false

/-! Concrete fixtures used to instantiate the theorems on closed inputs. -/

/-- A concrete configuration. -/
def cfgEx : Config :=
  { supabase_url := "https://proj.supabase.co"
  , anon_key := "anon-key"
  , service_key := "service-key" }

/-- A concrete UUID drawn by the oracle. -/
def uuidEx : String := "11111111-1111-4111-8111-111111111111"

/-- Oracle of a document for which every stage succeeds. -/
def wAllOk : DocWorld :=
  { pathExists := true
  , fileBytes := [77, 97, 110]
  , freshId := uuidEx
  , registerResp := .ok ()
  , ingestResp := .ok [("clausesCached", JVal.bool true)]
  , extractResp := .ok ()
  , analyzeResp := .ok [123, 125] }

/-- Oracle of a document whose file is missing. -/
def wMissingFile : DocWorld :=
  { wAllOk with pathExists := false }

/-- Oracle of a document whose registration call fails. -/
def wRegFail : DocWorld :=
  { wAllOk with registerResp := .error "boom" }

/-- Oracle of a document whose ingestion call fails. -/
def wIngestFail : DocWorld :=
  { wAllOk with ingestResp := .error "bad-ingest" }

/-- Oracle of a document whose clause-extraction call fails. -/
def wExtractFail : DocWorld :=
  { wAllOk with extractResp := .error "bad-extract" }

/-- Oracle of a document whose analysis call fails. -/
def wAnalyzeFail : DocWorld :=
  { wAllOk with analyzeResp := .error "bad-analyze" }

/-- Oracle of an all-stage success whose ingestion response carries no
`clausesCached` key. -/
def wNoCachedKey : DocWorld :=
  { wAllOk with ingestResp := .ok [("status", JVal.str "ok")] }

/-- A manifest entry with an unsupported extension. -/
def entryXlsx : FileEntry :=
  { path := "docs/sheet.xlsx"
  , contractType := "non_disclosure_agreement"
  , solution := { id := "nda", key := "nda", title := "Non-Disclosure Agreement" }
  , perspective := "disclosing-party" }

/-- A `.env` content with both elevated-credential keys absent. -/
def envNoService : List (String × String) :=
  [("VITE_SUPABASE_URL", "https://proj.supabase.co/"),
   ("VITE_SUPABASE_ANON_KEY", "anon-key")]

/-- A batch oracle giving every document the all-success oracle. -/
def wConst : Nat → DocWorld := fun _ => wAllOk

/-- Helper: a document's result entry always carries the manifest entry's
path, whatever the stage outcomes. -/
theorem processEntry_pathOf (cfg : Config) (entry : FileEntry) (w : DocWorld) :
    ResultEntry.pathOf (processEntry cfg entry w).1 = entry.path := by
  obtain ⟨pe, fb, fid, rr, ir, er, ar⟩ := w
  cases pe
  · rfl
  · cases hm : List.lookup (strLower (pathSuffix entry.path)) MIME_BY_EXT with
    | none => simp [processEntry, hm, ResultEntry.pathOf]
    | some mime =>
      by_cases hmm : mime = "" <;>
        rcases rr with e2 | u <;>
        rcases ir with e3 | body <;>
        rcases er with e4 | u2 <;>
        rcases ar with e5 | bs <;>
        simp [processEntry, hm, hmm, ResultEntry.pathOf]

/-- Helper: the document loop appends exactly one entry per manifest
entry, whatever each document's outcome. -/
theorem runDocs_length (cfg : Config) (fs : List FileEntry)
    (w : Nat → DocWorld) (i : Nat) :
    ((runDocs cfg fs w i).1).length = fs.length := by
  induction fs generalizing i with
  | nil => rfl
  | cons e rest ih => simp [runDocs, ih]

/-- Helper: the appended entries list the manifest paths in manifest
order. -/
theorem runDocs_paths (cfg : Config) (fs : List FileEntry)
    (w : Nat → DocWorld) (i : Nat) :
    ((runDocs cfg fs w i).1).map ResultEntry.pathOf = fs.map FileEntry.path := by
  induction fs generalizing i with
  | nil => rfl
  | cons e rest ih => simp [runDocs, ih, processEntry_pathOf]

/-- C3: the missing-file check runs before the extension check — a
document whose path does not exist yields a `file-not-found` failure
entry whatever its extension, and one with an unsupported extension
yields `unsupported-extension:<ext>`; in both cases the event trace is
empty (zero remote calls) and the entry carries no `ingestionId`. -/
theorem classify_failure_shapes (cfg : Config) (e1 e2 : FileEntry)
    (w1 w2 : DocWorld) (h1 : w1.pathExists = false) (h2 : w2.pathExists = true)
    (hm : List.lookup (strLower (pathSuffix e2.path)) MIME_BY_EXT = none) :
    processEntry cfg e1 w1 = (.failureNoId e1.path "file-not-found", []) ∧
    processEntry cfg e2 w2 =
      (.failureNoId e2.path
        ("unsupported-extension:" ++ strLower (pathSuffix e2.path)), []) ∧
    ResultEntry.idOf (processEntry cfg e1 w1).1 = none ∧
    ResultEntry.idOf (processEntry cfg e2 w2).1 = none := by
  have a1 : processEntry cfg e1 w1 = (.failureNoId e1.path "file-not-found", []) := by
    simp [processEntry, h1]
  have a2 : processEntry cfg e2 w2 =
      (.failureNoId e2.path
        ("unsupported-extension:" ++ strLower (pathSuffix e2.path)), []) := by
    simp [processEntry, h2, hm]
  refine ⟨a1, a2, ?_, ?_⟩
  · rw [a1]
    rfl
  · rw [a2]
    rfl

/-- Witness for C3: a nonexistent `.xlsx` document is reported
`file-not-found` (its unsupported extension is never consulted), an
existing `.xlsx` one `unsupported-extension:.xlsx`; no events either
way and no `ingestionId` in either entry. -/
theorem classify_failure_shapes_witness :
    processEntry cfgEx entryXlsx wMissingFile =
      (.failureNoId "docs/sheet.xlsx" "file-not-found", []) ∧
    processEntry cfgEx entryXlsx wAllOk =
      (.failureNoId "docs/sheet.xlsx" "unsupported-extension:.xlsx", []) ∧
    ResultEntry.idOf (processEntry cfgEx entryXlsx wMissingFile).1 = none ∧
    ResultEntry.idOf (processEntry cfgEx entryXlsx wAllOk).1 = none :=
  classify_failure_shapes cfgEx entryXlsx entryXlsx wMissingFile wAllOk
    rfl rfl (by decide)

/-- C1 counterexample: for a concrete document whose registration call
fails, the identifier was generated (it heads the event trace) yet the
appended entry contains no `ingestionId` — only the path and the
`ingestion-record:<cause>` tag — refuting the claim that a registration
failure entry still carries the already-generated identifier. -/
theorem registration_failure_entry_omits_id_cex :
    (processEntry cfgEx demoNda wRegFail).1 =
      .failureNoId "docs/Demo NDA AL.docx" "ingestion-record:boom" ∧
    ResultEntry.idOf (processEntry cfgEx demoNda wRegFail).1 = none ∧
    Event.genId "11111111-1111-4111-8111-111111111111" ∈
      (processEntry cfgEx demoNda wRegFail).2 := by
  refine ⟨rfl, rfl, ?_⟩
  decide

/-- C1 (amended): a failure at the ingestion, extraction, or analysis
stage appends an entry carrying the generated `ingestionId` together with
the stage tag and cause; a registration (`ingestion-record`) failure
entry carries the stage tag and cause but only the path — the generated
identifier is not attached to it. -/
theorem stage_failure_entry_shapes (cfg : Config) (entry : FileEntry)
    (w2 w3 w4 w5 : DocWorld) (mime : String) (e2 e3 e4 e5 : String)
    (body : List (String × JVal))
    (hm : List.lookup (strLower (pathSuffix entry.path)) MIME_BY_EXT = some mime)
    (hm0 : mime ≠ "")
    (hx2 : w2.pathExists = true) (hr2 : w2.registerResp = .error e2)
    (hx3 : w3.pathExists = true) (hr3 : w3.registerResp = .ok ())
    (hi3 : w3.ingestResp = .error e3)
    (hx4 : w4.pathExists = true) (hr4 : w4.registerResp = .ok ())
    (hi4 : w4.ingestResp = .ok body) (he4 : w4.extractResp = .error e4)
    (hx5 : w5.pathExists = true) (hr5 : w5.registerResp = .ok ())
    (hi5 : w5.ingestResp = .ok body) (he5 : w5.extractResp = .ok ())
    (ha5 : w5.analyzeResp = .error e5) :
    (processEntry cfg entry w2).1 =
      .failureNoId entry.path ("ingestion-record:" ++ e2) ∧
    (processEntry cfg entry w3).1 =
      .failureWithId entry.path ("ingest-contract:" ++ e3) w3.freshId ∧
    (processEntry cfg entry w4).1 =
      .failureWithId entry.path ("extract-clauses:" ++ e4) w4.freshId ∧
    (processEntry cfg entry w5).1 =
      .failureWithId entry.path ("analyze-contract:" ++ e5) w5.freshId := by
  refine ⟨?_, ?_, ?_, ?_⟩ <;>
    simp [processEntry, hm, hm0, hx2, hr2, hx3, hr3, hi3, hx4, hr4, hi4, he4,
      hx5, hr5, hi5, he5, ha5]

/-- Witness for the amended C1: concrete documents failing at each of the
four remote stages; stages 3–5 carry the generated identifier, the
registration failure carries only path and tag. -/
theorem stage_failure_entry_shapes_witness :
    (processEntry cfgEx demoNda wRegFail).1 =
      .failureNoId "docs/Demo NDA AL.docx" "ingestion-record:boom" ∧
    (processEntry cfgEx demoNda wIngestFail).1 =
      .failureWithId "docs/Demo NDA AL.docx" "ingest-contract:bad-ingest"
        "11111111-1111-4111-8111-111111111111" ∧
    (processEntry cfgEx demoNda wExtractFail).1 =
      .failureWithId "docs/Demo NDA AL.docx" "extract-clauses:bad-extract"
        "11111111-1111-4111-8111-111111111111" ∧
    (processEntry cfgEx demoNda wAnalyzeFail).1 =
      .failureWithId "docs/Demo NDA AL.docx" "analyze-contract:bad-analyze"
        "11111111-1111-4111-8111-111111111111" :=
  stage_failure_entry_shapes cfgEx demoNda wRegFail wIngestFail wExtractFail
    wAnalyzeFail
    "application/vnd.openxmlformats-officedocument.wordprocessingml.document"
    "boom" "bad-ingest" "bad-extract" "bad-analyze"
    [("clausesCached", JVal.bool true)]
    (by decide) (by decide) rfl rfl rfl rfl rfl rfl rfl rfl rfl rfl rfl rfl
    rfl rfl

/-- C2: when registration succeeds but ingestion fails, the appended
entry carries the registered `ingestionId` and an
`ingest-contract:<cause>` tag, and no clause-extraction or analysis call
appears anywhere in the document's event trace. -/
theorem ingest_failure_short_circuits (cfg : Config) (entry : FileEntry)
    (w : DocWorld) (mime exc : String)
    (hx : w.pathExists = true)
    (hm : List.lookup (strLower (pathSuffix entry.path)) MIME_BY_EXT = some mime)
    (hm0 : mime ≠ "")
    (hr : w.registerResp = .ok ())
    (hi : w.ingestResp = .error exc) :
    (processEntry cfg entry w).1 =
      .failureWithId entry.path ("ingest-contract:" ++ exc) w.freshId ∧
    ((processEntry cfg entry w).2).all notExtractOrAnalyze = true := by
  constructor <;>
    simp [processEntry, hx, hm, hm0, hr, hi, notExtractOrAnalyze,
      registerRequest, ingestRequest, Body.isExtract, Body.isAnalyze]

/-- Witness for C2: a concrete document whose ingestion call fails; its
entry carries the identifier and tag, and its trace holds no extraction
or analysis call. -/
theorem ingest_failure_short_circuits_witness :
    (processEntry cfgEx demoNda wIngestFail).1 =
      .failureWithId "docs/Demo NDA AL.docx" "ingest-contract:bad-ingest"
        "11111111-1111-4111-8111-111111111111" ∧
    ((processEntry cfgEx demoNda wIngestFail).2).all notExtractOrAnalyze = true :=
  ingest_failure_short_circuits cfgEx demoNda wIngestFail
    "application/vnd.openxmlformats-officedocument.wordprocessingml.document"
    "bad-ingest" rfl (by decide) (by decide) rfl rfl

/-- Helper: every remote call of a document's trace is one of the four
stage requests, built with the looked-up MIME type, the document's bytes,
and the one generated identifier. -/
theorem processEntry_call_mem (cfg : Config) (entry : FileEntry)
    (w : DocWorld) (r : Request)
    (hr : Event.call r ∈ (processEntry cfg entry w).2) :
    ∃ mime, List.lookup (strLower (pathSuffix entry.path)) MIME_BY_EXT = some mime ∧
      (r = registerRequest cfg entry mime w.fileBytes w.freshId ∨
       r = ingestRequest cfg entry (strLower (pathSuffix entry.path)) mime
             w.fileBytes w.freshId ∨
       r = extractRequest cfg entry w.freshId ∨
       r = analyzeRequest cfg entry w.freshId) := by
  obtain ⟨pe, fb, fid, rr, ir, er, ar⟩ := w
  cases pe
  · simp [processEntry] at hr
  · cases hm : List.lookup (strLower (pathSuffix entry.path)) MIME_BY_EXT with
    | none => simp [processEntry, hm] at hr
    | some mime =>
      by_cases hmm : mime = ""
      · simp [processEntry, hm, hmm] at hr
      · refine ⟨mime, rfl, ?_⟩
        rcases rr with e2 | u <;> rcases ir with e3 | body <;>
          rcases er with e4 | u2 <;> rcases ar with e5 | bs <;>
          simp [processEntry, hm, hmm, Event.call.injEq] at hr <;>
          tauto

/-- C4: a document's event trace is either empty (the classifier failed
before any remote work) or begins with the generation of the single
ingestion identifier; no further generation occurs, and every remote call
in the trace carries that identifier unchanged — as the record id of the
registration body and as the `ingestionId` field of the ingestion,
extraction, and analysis bodies. -/
theorem unique_id_generated_before_first_call (cfg : Config)
    (entry : FileEntry) (w : DocWorld) :
    (processEntry cfg entry w).2 = [] ∨
    (((processEntry cfg entry w).2).head? = some (Event.genId w.freshId) ∧
      (∀ e ∈ ((processEntry cfg entry w).2).tail, Event.isGen e = false) ∧
      (∀ r : Request, Event.call r ∈ (processEntry cfg entry w).2 →
        Body.idOf r.body = w.freshId)) := by
  obtain ⟨pe, fb, fid, rr, ir, er, ar⟩ := w
  cases pe
  · exact Or.inl rfl
  · cases hm : List.lookup (strLower (pathSuffix entry.path)) MIME_BY_EXT with
    | none => exact Or.inl (by simp [processEntry, hm])
    | some mime =>
      by_cases hmm : mime = ""
      · exact Or.inl (by simp [processEntry, hm, hmm])
      · refine Or.inr ⟨?_, ?_, ?_⟩
        · rcases rr with e2 | u <;> rcases ir with e3 | body <;>
            rcases er with e4 | u2 <;> rcases ar with e5 | bs <;>
            simp [processEntry, hm, hmm]
        · intro e he
          rcases rr with e2 | u <;> rcases ir with e3 | body <;>
            rcases er with e4 | u2 <;> rcases ar with e5 | bs <;>
            simp [processEntry, hm, hmm] at he <;>
            rcases he with rfl | he <;>
            first
              | rfl
              | (rcases he with rfl | he <;>
                  first
                    | rfl
                    | (rcases he with rfl | he <;>
                        first
                          | rfl
                          | (rcases he with rfl | rfl <;> rfl)))
        · intro req hreq
          have hshape := processEntry_call_mem cfg entry
            ⟨true, fb, fid, rr, ir, er, ar⟩ req hreq
          obtain ⟨mime2, _, hcase⟩ := hshape
          rcases hcase with rfl | rfl | rfl | rfl <;> rfl

/-- C5: the document loop appends exactly one result entry per manifest
entry, whatever mix of stages failed, and the report lists the entries in
manifest order (entrywise over the manifest paths). -/
theorem one_entry_per_manifest_in_order (cfg : Config) (fs : List FileEntry)
    (w : Nat → DocWorld) (i : Nat) :
    ((runDocs cfg fs w i).1).length = fs.length ∧
    ((runDocs cfg fs w i).1).map ResultEntry.pathOf = fs.map FileEntry.path :=
  ⟨runDocs_length cfg fs w i, runDocs_paths cfg fs w i⟩

/-- C6: a document succeeding through all four stages yields exactly one
artifact write, and a success entry whose output location is the artifact
path (non-null) and whose `clausesCached` value is exactly the
`clausesCached` field looked up in the parsed ingestion response. -/
theorem success_entry_and_single_artifact (cfg : Config) (entry : FileEntry)
    (w : DocWorld) (mime : String) (body : List (String × JVal)) (bs : List Nat)
    (hx : w.pathExists = true)
    (hm : List.lookup (strLower (pathSuffix entry.path)) MIME_BY_EXT = some mime)
    (hm0 : mime ≠ "")
    (hr : w.registerResp = .ok ())
    (hi : w.ingestResp = .ok body)
    (he : w.extractResp = .ok ())
    (ha : w.analyzeResp = .ok bs) :
    (processEntry cfg entry w).1 =
      .success entry.path w.freshId (List.lookup "clausesCached" body)
        (artifactPath entry.path) ∧
    ((processEntry cfg entry w).2).filter Event.isWrite =
      [Event.writeArtifact (artifactPath entry.path) bs] := by
  constructor <;>
    simp [processEntry, artifactPath, hx, hm, hm0, hr, hi, he, ha,
      Event.isWrite]

/-- Witness for C6: a concrete all-success document; one artifact write,
success entry with the artifact location and the ingestion response's
`clausesCached` value. -/
theorem success_entry_and_single_artifact_witness :
    (processEntry cfgEx demoNda wAllOk).1 =
      .success "docs/Demo NDA AL.docx" uuidEx (some (JVal.bool true))
        "/tmp/Demo_NDA_AL-analysis.json" ∧
    ((processEntry cfgEx demoNda wAllOk).2).filter Event.isWrite =
      [Event.writeArtifact "/tmp/Demo_NDA_AL-analysis.json" [123, 125]] :=
  success_entry_and_single_artifact cfgEx demoNda wAllOk docxMime
    [("clausesCached", JVal.bool true)] [123, 125]
    rfl (by decide) (by decide) rfl rfl rfl rfl

/-- C7: an absent (or empty) elevated service credential aborts the run
before any document is processed — the batch result is an error and the
event trace is empty, so no remote call is issued — while, conversely, no
per-document stage failure terminates the loop: whatever each document's
oracle does, one entry per manifest entry is still produced. -/
theorem missing_service_key_aborts_and_failures_are_local
    (env : List (String × String)) (fs : List FileEntry) (w : Nat → DocWorld)
    (cfg : Config) (fs2 : List FileEntry) (w2 : Nat → DocWorld) (i : Nat)
    (h : pyTruthy (pyOrStr (List.lookup "SUPABASE_SERVICE_ROLE_KEY" env)
      (List.lookup "SUPABASE_SERVICE_KEY" env)) = false) :
    isErr (runBatch env fs w).1 = true ∧
    (runBatch env fs w).2 = [] ∧
    ((runDocs cfg fs2 w2 i).1).length = fs2.length := by
  have hb : isErr (runBatch env fs w).1 = true ∧ (runBatch env fs w).2 = [] := by
    unfold runBatch
    cases List.lookup "VITE_SUPABASE_URL" env with
    | none => exact ⟨rfl, rfl⟩
    | some url =>
      cases List.lookup "VITE_SUPABASE_ANON_KEY" env with
      | none => exact ⟨rfl, rfl⟩
      | some anon => simp [h, isErr]
  exact ⟨hb.1, hb.2, runDocs_length cfg fs2 w2 i⟩

/-- Witness for C7: a concrete `.env` lacking both elevated-credential
keys aborts with an empty trace, and a concrete loop over the manifest
yields four entries. -/
theorem missing_service_key_aborts_and_failures_are_local_witness :
    isErr (runBatch envNoService files wConst).1 = true ∧
    (runBatch envNoService files wConst).2 = [] ∧
    ((runDocs cfgEx files wConst 0).1).length = files.length :=
  missing_service_key_aborts_and_failures_are_local envNoService files wConst
    cfgEx files wConst 0 (by decide)

/-- C8: every remote request of a document's trace sets
`Content-Type: application/json`; the registration (record-creation)
request authenticates with the elevated service credential as bearer
token and `apikey` (plus `Prefer: return=representation`), and the three
function requests authenticate with the restricted client credential as
bearer token and `apikey`. -/
theorem request_content_type_and_credentials (cfg : Config)
    (entry : FileEntry) (w : DocWorld) (r : Request)
    (hr : Event.call r ∈ (processEntry cfg entry w).2) :
    r.headers.contentType = "application/json" ∧
    r.headers = (match r.body with
      | .record _ =>
        { contentType := "application/json"
        , authorization := "Bearer " ++ cfg.service_key
        , apikey := cfg.service_key
        , prefer := some "return=representation" }
      | _ => anonHeaders cfg) := by
  obtain ⟨mime, _, hcase⟩ := processEntry_call_mem cfg entry w r hr
  rcases hcase with rfl | rfl | rfl | rfl <;> exact ⟨rfl, rfl⟩

/-- Witness for C8: the registration request of a concrete document run
carries the service credential, `Content-Type: application/json`. -/
theorem request_content_type_and_credentials_witness :
    (registerRequest cfgEx demoNda docxMime [77, 97, 110] uuidEx).headers.contentType =
      "application/json" ∧
    (registerRequest cfgEx demoNda docxMime [77, 97, 110] uuidEx).headers =
      (match (registerRequest cfgEx demoNda docxMime [77, 97, 110] uuidEx).body with
        | .record _ =>
          { contentType := "application/json"
          , authorization := "Bearer " ++ cfgEx.service_key
          , apikey := cfgEx.service_key
          , prefer := some "return=representation" }
        | _ => anonHeaders cfgEx) :=
  request_content_type_and_credentials cfgEx demoNda wAllOk
    (registerRequest cfgEx demoNda docxMime [77, 97, 110] uuidEx) (by decide)

/-- C9: the per-stage timeout budgets are distinct and fixed —
60 seconds for the registration request, 180 for ingestion, 180 for
clause extraction, and 240 for analysis. -/
theorem stage_timeout_budgets (cfg : Config) (entry : FileEntry)
    (w : DocWorld) (r : Request)
    (hr : Event.call r ∈ (processEntry cfg entry w).2) :
    r.timeout = (match r.body with
      | .record _ => 60
      | .ingest _ => 180
      | .extract _ => 180
      | .analyze _ => 240) := by
  obtain ⟨mime, _, hcase⟩ := processEntry_call_mem cfg entry w r hr
  rcases hcase with rfl | rfl | rfl | rfl <;> rfl

/-- Witness for C9: the four requests of a concrete all-success run carry
timeouts 60, 180, 180, 240 respectively. -/
theorem stage_timeout_budgets_witness :
    (registerRequest cfgEx demoNda docxMime [77, 97, 110] uuidEx).timeout = 60 ∧
    (ingestRequest cfgEx demoNda ".docx" docxMime [77, 97, 110] uuidEx).timeout = 180 ∧
    (extractRequest cfgEx demoNda uuidEx).timeout = 180 ∧
    (analyzeRequest cfgEx demoNda uuidEx).timeout = 240 :=
  ⟨stage_timeout_budgets cfgEx demoNda wAllOk
      (registerRequest cfgEx demoNda docxMime [77, 97, 110] uuidEx) (by decide),
   stage_timeout_budgets cfgEx demoNda wAllOk
      (ingestRequest cfgEx demoNda ".docx" docxMime [77, 97, 110] uuidEx) (by decide),
   stage_timeout_budgets cfgEx demoNda wAllOk
      (extractRequest cfgEx demoNda uuidEx) (by decide),
   stage_timeout_budgets cfgEx demoNda wAllOk
      (analyzeRequest cfgEx demoNda uuidEx) (by decide)⟩

/-- C10: a successful document's output location is exactly
`/tmp/<stem>-analysis.json` with every space of the filename stem
replaced by an underscore; two paths whose stems coincide after this
replacement yield the same artifact path (so the later write lands on the
earlier one's file); and an ingestion response lacking the
`clausesCached` key yields a success entry whose `clausesCached` is the
(null) lookup result rather than any failure. -/
theorem artifact_path_and_cached_flag_passthrough (cfg : Config)
    (entry : FileEntry) (w : DocWorld) (mime : String)
    (body : List (String × JVal)) (bs : List Nat) (p q : String)
    (hx : w.pathExists = true)
    (hm : List.lookup (strLower (pathSuffix entry.path)) MIME_BY_EXT = some mime)
    (hm0 : mime ≠ "")
    (hr : w.registerResp = .ok ())
    (hi : w.ingestResp = .ok body)
    (he : w.extractResp = .ok ())
    (ha : w.analyzeResp = .ok bs)
    (hcol : replaceSpaces (pathStem p) = replaceSpaces (pathStem q)) :
    (processEntry cfg entry w).1 =
      .success entry.path w.freshId (List.lookup "clausesCached" body)
        ("/tmp/" ++ (replaceSpaces (pathStem entry.path) ++ "-analysis.json")) ∧
    artifactPath p = artifactPath q := by
  constructor
  · simp [processEntry, hx, hm, hm0, hr, hi, he, ha]
  · simp [artifactPath, hcol]

/-- Witness for C10: a concrete success whose ingestion response lacks
`clausesCached` still yields a success entry (null flag) at
`/tmp/Demo_NDA_AL-analysis.json` (spaces of the stem replaced), and the
distinct paths `docs/a b.docx` and `x/a_b.pdf` collide on
`/tmp/a_b-analysis.json`. -/
theorem artifact_path_and_cached_flag_passthrough_witness :
    (processEntry cfgEx demoNda wNoCachedKey).1 =
      .success "docs/Demo NDA AL.docx" uuidEx none
        "/tmp/Demo_NDA_AL-analysis.json" ∧
    artifactPath "docs/a b.docx" = artifactPath "x/a_b.pdf" :=
  artifact_path_and_cached_flag_passthrough cfgEx demoNda wNoCachedKey
    docxMime [("status", JVal.str "ok")] [123, 125] "docs/a b.docx" "x/a_b.pdf"
    rfl (by decide) (by decide) rfl rfl rfl rfl (by decide)

end FullFlowBatch
